import Mathlib

/-!
Shallow embedding of the report-lifecycle and moderation engine of the
leyenda-vial backend (src/main.py, src/cron_limpieza.py).

Database rows are modelled as Lean structures holding exactly the columns the
engine reads or writes; a `DB` value is the durable store (tables `users`,
`reports`, `report_votes`, `reports_history`).  Timestamps and calendar days
are integers (seconds / day ordinals); SQL `NOW()` and `date.today()` become
explicit `now` / `today` parameters.  The PostGIS predicate
`ST_DWithin(location, point, 50)` is external to this repository, so every
operation that needs it takes an oracle `near : Loc → Loc → Bool` standing
for "great-circle distance below the 50 m dedup radius".
-/

/-- Geographic location as stored in the `location` column; the engine never
inspects coordinates itself, it only passes them to the `near` oracle. -/
abbrev Loc := Int × Int

/-- Columns of the `users` table read or written by the engine
(src/main.py).  `daily_reports_count` and `last_report_date` are nullable in
the schema (the code guards `user['daily_reports_count'] is not None`). -/
structure User where
  id : Nat
  is_premium : Bool
  daily_reports_count : Option Int
  last_report_date : Option Int
  reputation : Int
  lifetime_xp : Int
  total_reports : Int
  total_helps : Int
deriving DecidableEq, Repr

/-- Columns of the `reports` table (src/main.py, src/cron_limpieza.py). -/
structure Report where
  id : Nat
  user_id : Nat
  type_code : String
  description : String
  loc : Loc
  created_at : Int
  score : Int
  is_active : Bool
deriving DecidableEq, Repr

/-- Rows of the `report_votes` table (src/main.py, `votar_reporte`). -/
structure Vote where
  user_id : Nat
  report_id : Nat
  vote_type : String
deriving DecidableEq, Repr

/-- Rows of the `reports_history` table written by the archival sweep
(src/cron_limpieza.py, `archivar_vencidos`). -/
structure HistRow where
  id : Nat
  user_id : Nat
  type_code : String
  description : String
  loc : Loc
  created_at : Int
  score : Int
  final_status : String
deriving DecidableEq, Repr

/-- The durable database state. -/
structure DB where
  users : List User
  reports : List Report
  report_votes : List Vote
  reports_history : List HistRow
deriving DecidableEq, Repr

/-- `SELECT ... FROM users WHERE id = %s` with `fetchone()`. -/
def findUser (db : DB) (uid : Nat) : Option User :=
  db.users.find? (fun u => u.id == uid)

/-- `UPDATE users SET ... WHERE id = %s`: rewrite every row matching the id. -/
def updUser (db : DB) (uid : Nat) (f : User → User) : DB :=
  { db with users := db.users.map (fun u => if u.id == uid then f u else u) }

/-- `UPDATE reports SET ... WHERE id = %s`. -/
def updReport (db : DB) (rid : Nat) (f : Report → Report) : DB :=
  { db with reports := db.reports.map (fun r => if r.id == rid then f r else r) }

/-- Per-category dedup time window, in seconds (src/main.py lines 292-295):
`intervalo = "2 hours"`, and `"24 hours"` when `type_code == 'obra'`. -/
def dedup_intervalo (type_code : String) : Int :=
  if type_code == "obra" then 24 * 3600 else 2 * 3600

/-- The row predicate of the dedup query (src/main.py lines 297-304):
same `type_code`, `is_active = TRUE`, `created_at > NOW() - INTERVAL`,
and `ST_DWithin(location, point, 50)` (the `near` oracle). -/
def dedupMatch (near : Loc → Loc → Bool) (now : Int) (type_code : String)
    (loc : Loc) (r : Report) : Bool :=
  r.type_code == type_code && r.is_active &&
    decide (r.created_at > now - dedup_intervalo type_code) && near r.loc loc

/-- The dedup lookup `SELECT id FROM reports WHERE ... LIMIT 1` with
`fetchone()`: first matching row, if any. -/
def buscar_duplicado (near : Loc → Loc → Bool) (now : Int)
    (reports : List Report) (type_code : String) (loc : Loc) : Option Report :=
  reports.find? (dedupMatch near now type_code loc)

/-- Outcomes of `crear_reporte` (`status` field of the returned JSON). -/
inductive SubmitOutcome where
  | userNotFound
  | confirmed
  | errorLimit
  | created
deriving DecidableEq, Repr

/-- `POST /reportes` (src/main.py lines 263-358, `crear_reporte`):
fetch the user; daily reset when the stored date is not today (committed on
its own); dedup lookup; on a match renew `created_at` and pay the
corroboration reward (+3/+2/+1 helps); otherwise enforce the free limit of 3
for non-premium users, else insert the report and pay the creation reward
(+10/+5, total_reports+1, daily count+1 via SQL `count = count + 1`). -/
def crear_reporte (near : Loc → Loc → Bool) (now today : Int) (db : DB)
    (user_id : Nat) (type_code : String) (loc : Loc) (newId : Nat) :
    DB × SubmitOutcome :=
  match findUser db user_id with
  | none => (db, .userNotFound)
  | some user =>
    let count0 := user.daily_reports_count.getD 0
    let resetNeeded : Bool := !(user.last_report_date == some today)
    let count := if resetNeeded then 0 else count0
    let db1 :=
      if resetNeeded then
        updUser db user_id (fun u =>
          { u with daily_reports_count := some 0, last_report_date := some today })
      else db
    match buscar_duplicado near now db1.reports type_code loc with
    | some r =>
      let db2 := updReport db1 r.id (fun x => { x with created_at := now })
      let db3 := updUser db2 user_id (fun u =>
        { u with reputation := u.reputation + 3,
                 lifetime_xp := u.lifetime_xp + 2,
                 total_helps := u.total_helps + 1 })
      (db3, .confirmed)
    | none =>
      if !user.is_premium && count ≥ 3 then (db1, .errorLimit)
      else
        let newR : Report :=
          { id := newId, user_id := user_id, type_code := type_code,
            description := "Reporte desde App", loc := loc,
            created_at := now, score := 0, is_active := true }
        let db2 := { db1 with reports := db1.reports ++ [newR] }
        let db3 := updUser db2 user_id (fun u =>
          { u with reputation := u.reputation + 10,
                   lifetime_xp := u.lifetime_xp + 5,
                   total_reports := u.total_reports + 1,
                   daily_reports_count := u.daily_reports_count.map (· + 1) })
        (db3, .created)

/-- Vote weight (src/main.py lines 585-587): `poder_voto = 1`, reassigned to
3 when `xp > 50`, then to 5 when `xp > 500`. -/
def poder_voto (xp : Int) : Int :=
  let p : Int := 1
  let p := if xp > 50 then 3 else p
  let p := if xp > 500 then 5 else p
  p

/-- `SELECT ... FROM reports WHERE id = %s AND is_active = TRUE`. -/
def findActiveReport (db : DB) (rid : Nat) : Option Report :=
  db.reports.find? (fun r => r.id == rid && r.is_active)

/-- `SELECT id FROM report_votes WHERE user_id = %s AND report_id = %s`. -/
def hasVote (db : DB) (uid rid : Nat) : Bool :=
  db.report_votes.any (fun v => v.user_id == uid && v.report_id == rid)

/-- Outcomes of `votar_reporte`.  The three error constructors carry the
three distinct rejection messages; `fallthrough` is the implicit `None`
returned when `tipo_voto` matches neither branch. -/
inductive VoteOutcome where
  | reportGone
  | selfVote
  | alreadyVoted
  | successConfirm
  | successBorrarEliminado
  | successBorrarNegativo
  | fallthrough
deriving DecidableEq, Repr

/-- `POST /reportes/votar` (src/main.py lines 561-630, `votar_reporte`):
preconditions in order (active report exists, not the author, no prior
vote), then weight from the voter's `lifetime_xp` (0 when the user row is
missing), then the `confirmar` / `borrar` branches.  In the `borrar` branch
`nuevo_score = reporte['score'] - poder_voto`; at `nuevo_score ≤ -5` only
`is_active` is flipped, otherwise only the score is decremented. -/
def votar_reporte (now : Int) (db : DB) (user_id reporte_id : Nat)
    (tipo_voto : String) : DB × VoteOutcome :=
  match findActiveReport db reporte_id with
  | none => (db, .reportGone)
  | some reporte =>
    if reporte.user_id == user_id then (db, .selfVote)
    else if hasVote db user_id reporte_id then (db, .alreadyVoted)
    else
      let xp := ((findUser db user_id).map (·.lifetime_xp)).getD 0
      let poder := poder_voto xp
      if tipo_voto == "confirmar" then
        let dbV := { db with
          report_votes := db.report_votes ++ [⟨user_id, reporte_id, "confirmar"⟩] }
        let dbR := updReport dbV reporte_id (fun r =>
          { r with created_at := now, score := r.score + poder })
        let dbU := updUser dbR user_id (fun u =>
          { u with reputation := u.reputation + 2,
                   lifetime_xp := u.lifetime_xp + 1,
                   total_helps := u.total_helps + 1 })
        (dbU, .successConfirm)
      else if tipo_voto == "borrar" then
        let dbV := { db with
          report_votes := db.report_votes ++ [⟨user_id, reporte_id, "borrar"⟩] }
        let nuevo_score := reporte.score - poder
        if nuevo_score ≤ -5 then
          let dbR := updReport dbV reporte_id (fun r => { r with is_active := false })
          let dbU := updUser dbR user_id (fun u =>
            { u with reputation := u.reputation + 1,
                     lifetime_xp := u.lifetime_xp + 1,
                     total_helps := u.total_helps + 1 })
          (dbU, .successBorrarEliminado)
        else
          let dbR := updReport dbV reporte_id (fun r => { r with score := r.score - poder })
          let dbU := updUser dbR user_id (fun u =>
            { u with reputation := u.reputation + 1,
                     lifetime_xp := u.lifetime_xp + 1,
                     total_helps := u.total_helps + 1 })
          (dbU, .successBorrarNegativo)
      else (db, .fallthrough)

/-- Outcomes of the two point-redemption endpoints. -/
inductive CanjeOutcome where
  | notFound
  | insuficientes
  | yaPremium
  | fallo
  | success
deriving DecidableEq, Repr

/-- `POST /canjear-puntos` (src/main.py lines 433-476): debit points and
lower the daily counter.  When `daily_reports_count` is NULL the Python
subtraction raises before any write, so nothing is committed (`fallo`). -/
def canjear_puntos (db : DB) (user_id : Nat) (costo cantidad : Int) :
    DB × CanjeOutcome :=
  match findUser db user_id with
  | none => (db, .notFound)
  | some user =>
    if user.reputation < costo then (db, .insuficientes)
    else
      match user.daily_reports_count with
      | none => (db, .fallo)
      | some usados =>
        (updUser db user_id (fun u =>
          { u with reputation := u.reputation - costo,
                   daily_reports_count := some (usados - cantidad) }), .success)

/-- `POST /canjear-premium` (src/main.py lines 478-521): debit points and
set the premium flag (the expiry columns are outside the engine model). -/
def canjear_premium (db : DB) (user_id : Nat) (costo : Int) : DB × CanjeOutcome :=
  match findUser db user_id with
  | none => (db, .notFound)
  | some user =>
    if user.is_premium then (db, .yaPremium)
    else if user.reputation < costo then (db, .insuficientes)
    else
      (updUser db user_id (fun u =>
        { u with reputation := u.reputation - costo, is_premium := true }), .success)

/-- Row predicate of the archival sweep (src/cron_limpieza.py lines 47-48
and 58-59): `created_at < NOW() - INTERVAL '2 hours' OR is_active = FALSE`.
Note the fixed two-hour window, for every category. -/
def vencido (now : Int) (r : Report) : Bool :=
  decide (r.created_at < now - 2 * 3600) || !r.is_active

/-- The `CASE WHEN is_active = FALSE THEN 'borrado_votos' ELSE
'vencido_tiempo' END` projection into `reports_history`. -/
def toHistRow (r : Report) : HistRow :=
  { id := r.id, user_id := r.user_id, type_code := r.type_code,
    description := r.description, loc := r.loc, created_at := r.created_at,
    score := r.score,
    final_status := if !r.is_active then "borrado_votos" else "vencido_tiempo" }

/-- The `INSERT INTO reports_history ... ON CONFLICT (id) DO NOTHING`
statement: insert the selected rows one by one, skipping any whose id is
already present; also return `cur.rowcount`, the number actually inserted. -/
def copiar_historico : List HistRow → List Report → List HistRow × Nat
  | hist, [] => (hist, 0)
  | hist, r :: rest =>
    if hist.any (fun h => h.id == r.id) then copiar_historico hist rest
    else
      let res := copiar_historico (hist ++ [toHistRow r]) rest
      (res.1, res.2 + 1)

/-- One iteration of the archival sweep (src/cron_limpieza.py lines 25-69,
`archivar_vencidos`): copy the matching rows into history, and only when
`copiados > 0` delete the matching rows from `reports` and commit; when
nothing was inserted the transaction is never committed and the store is
unchanged. -/
def archivar_vencidos (now : Int) (db : DB) : DB :=
  let res := copiar_historico db.reports_history (db.reports.filter (vencido now))
  if res.2 > 0 then
    { db with reports_history := res.1,
              reports := db.reports.filter (fun r => !vencido now r) }
  else db

/-- A transaction step: an uncommitted write, or a commit publishing the
pending state. -/
inductive TxOp where
  | write (f : DB → DB)
  | commit

/-- Run steps over a (durable, pending) pair: `write` mutates only the
pending state, `commit` makes it durable (`conn.commit()`). -/
def runOps : List TxOp → DB → DB → DB × DB
  | [], d, p => (d, p)
  | TxOp.write f :: rest, d, p => runOps rest d (f p)
  | TxOp.commit :: rest, _, p => runOps rest p p

/-- Durable state when the connection dies after the first `k` steps: every
uncommitted write is rolled back (the `conn.rollback()` / close path). -/
def runAborted (ops : List TxOp) (k : Nat) (db : DB) : DB :=
  (runOps (ops.take k) db db).1

/-- The pending states published at each commit along a run. -/
def commitStates : List TxOp → DB → List DB
  | [], _ => []
  | TxOp.write f :: rest, p => commitStates rest (f p)
  | TxOp.commit :: rest, p => p :: commitStates rest p

/-- The transaction trace of `crear_reporte`: the daily reset is committed
on its own (src/main.py line 284); afterwards each branch issues its writes
followed by one final commit (corroborate: renew + reward; create: insert +
reward; the quota rejection writes nothing). -/
def crear_trace (near : Loc → Loc → Bool) (now today : Int) (db : DB)
    (user_id : Nat) (type_code : String) (loc : Loc) (newId : Nat) : List TxOp :=
  match findUser db user_id with
  | none => []
  | some user =>
    let count := if !(user.last_report_date == some today) then 0
      else user.daily_reports_count.getD 0
    let resetOps : List TxOp :=
      if !(user.last_report_date == some today) then
        [TxOp.write (fun d => updUser d user_id (fun u =>
          { u with daily_reports_count := some 0, last_report_date := some today })),
         TxOp.commit]
      else []
    let db1 :=
      if !(user.last_report_date == some today) then
        updUser db user_id (fun u =>
          { u with daily_reports_count := some 0, last_report_date := some today })
      else db
    match buscar_duplicado near now db1.reports type_code loc with
    | some r =>
      resetOps ++
        [TxOp.write (fun d => updReport d r.id (fun x => { x with created_at := now })),
         TxOp.write (fun d => updUser d user_id (fun u =>
           { u with reputation := u.reputation + 3, lifetime_xp := u.lifetime_xp + 2,
                    total_helps := u.total_helps + 1 })),
         TxOp.commit]
    | none =>
      if !user.is_premium && count ≥ 3 then resetOps
      else
        resetOps ++
          [TxOp.write (fun d => { d with reports := d.reports ++
             [{ id := newId, user_id := user_id, type_code := type_code,
                description := "Reporte desde App", loc := loc,
                created_at := now, score := 0, is_active := true }] }),
           TxOp.write (fun d => updUser d user_id (fun u =>
             { u with reputation := u.reputation + 10, lifetime_xp := u.lifetime_xp + 5,
                      total_reports := u.total_reports + 1,
                      daily_reports_count := u.daily_reports_count.map (· + 1) })),
           TxOp.commit]

/-- The transaction trace of `votar_reporte`: every rejection (and the
unknown-kind fallthrough) issues no write; each success branch inserts the
vote row, updates the report, rewards the voter, and commits once. -/
def votar_trace (now : Int) (db : DB) (user_id reporte_id : Nat)
    (tipo_voto : String) : List TxOp :=
  match findActiveReport db reporte_id with
  | none => []
  | some reporte =>
    if reporte.user_id == user_id then []
    else if hasVote db user_id reporte_id then []
    else
      let xp := ((findUser db user_id).map (·.lifetime_xp)).getD 0
      let poder := poder_voto xp
      if tipo_voto == "confirmar" then
        [TxOp.write (fun d => { d with
           report_votes := d.report_votes ++ [⟨user_id, reporte_id, "confirmar"⟩] }),
         TxOp.write (fun d => updReport d reporte_id (fun r =>
           { r with created_at := now, score := r.score + poder })),
         TxOp.write (fun d => updUser d user_id (fun u =>
           { u with reputation := u.reputation + 2, lifetime_xp := u.lifetime_xp + 1,
                    total_helps := u.total_helps + 1 })),
         TxOp.commit]
      else if tipo_voto == "borrar" then
        if reporte.score - poder ≤ -5 then
          [TxOp.write (fun d => { d with
             report_votes := d.report_votes ++ [⟨user_id, reporte_id, "borrar"⟩] }),
           TxOp.write (fun d => updReport d reporte_id (fun r => { r with is_active := false })),
           TxOp.write (fun d => updUser d user_id (fun u =>
             { u with reputation := u.reputation + 1, lifetime_xp := u.lifetime_xp + 1,
                      total_helps := u.total_helps + 1 })),
           TxOp.commit]
        else
          [TxOp.write (fun d => { d with
             report_votes := d.report_votes ++ [⟨user_id, reporte_id, "borrar"⟩] }),
           TxOp.write (fun d => updReport d reporte_id (fun r => { r with score := r.score - poder })),
           TxOp.write (fun d => updUser d user_id (fun u =>
             { u with reputation := u.reputation + 1, lifetime_xp := u.lifetime_xp + 1,
                      total_helps := u.total_helps + 1 })),
           TxOp.commit]
      else []

/-- The reward-relevant columns of a user row: points, experience, and the
two counters touched only by reward updates. -/
def rewardView (db : DB) (uid : Nat) : Option (Int × Int × Int × Int) :=
  (findUser db uid).map (fun u => (u.reputation, u.lifetime_xp, u.total_reports, u.total_helps))

/-- The stored `lifetime_xp` of user `uid`, when the row exists. -/
def xpOf (db : DB) (uid : Nat) : Option Int := (findUser db uid).map (·.lifetime_xp)

/-- Pointwise order on optional experience values: the row keeps existing
and its experience does not decrease. -/
def xpLe : Option Int → Option Int → Prop
  | none, none => True
  | some x, some y => x ≤ y
  | _, _ => False

/-!
Concrete fixtures used by the witness and counterexample theorems below.
-/

/-- Distance oracle for concrete runs: two points are within the 50 m dedup
radius exactly when they are the same point (distance 0). -/
def exNear : Loc → Loc → Bool := fun a b => a == b

/-- A free user (id 1) with no activity today. -/
def exUser1 : User := ⟨1, false, some 0, some 0, 0, 0, 0, 0⟩

/-- A free user (id 2) who already used the 3 free submissions today. -/
def exUser2 : User := ⟨2, false, some 3, some 0, 5, 10, 1, 0⟩

/-- An active report authored by user 1. -/
def exRep : Report := ⟨10, 1, "control", "d", (0, 0), 0, 0, true⟩

/-- A two-user store holding the single active report `exRep`. -/
def exDb : DB := ⟨[exUser1, exUser2], [exRep], [], []⟩

/-- Store where user 2 already voted on report 10. -/
def exDbVoted : DB := ⟨[exUser1, exUser2], [exRep], [⟨2, 10, "borrar"⟩], []⟩

/-- An active report of category 'obra', three hours old at time 10800. -/
def exObra : Report := ⟨20, 1, "obra", "d", (0, 0), 0, 0, true⟩

/-- Store holding only the three-hour-old 'obra' report. -/
def exDbObra : DB := ⟨[exUser1, exUser2], [exObra], [], []⟩

/-- Witness data for C2: the live store after user 1 created an 'accidente'
report at point (3, 3) at time 5. -/
def exDb1 : DB := (crear_reporte exNear 5 0 exDb 1 "accidente" (3, 3) 42).1

/-!
General lemmas about the store operations.
-/

theorem updUser_users (db : DB) (uid : Nat) (f : User → User) :
    (updUser db uid f).users = db.users.map (fun u => if u.id == uid then f u else u) := rfl

theorem updUser_reports (db : DB) (uid : Nat) (f : User → User) :
    (updUser db uid f).reports = db.reports := rfl

theorem updUser_votes (db : DB) (uid : Nat) (f : User → User) :
    (updUser db uid f).report_votes = db.report_votes := rfl

theorem updReport_reports (db : DB) (rid : Nat) (f : Report → Report) :
    (updReport db rid f).reports = db.reports.map (fun r => if r.id == rid then f r else r) := rfl

theorem updReport_users (db : DB) (rid : Nat) (f : Report → Report) :
    (updReport db rid f).users = db.users := rfl

theorem find?_map_eq {α : Type} (g : α → α) (p : α → Bool) (l : List α)
    (h : ∀ a, p (g a) = p a) : (l.map g).find? p = (l.find? p).map g := by
  induction l with
  | nil => rfl
  | cons a t ih =>
    rw [List.map_cons]
    by_cases hpa : p a = true
    · rw [List.find?_cons_of_pos _ (by rw [h a]; exact hpa),
        List.find?_cons_of_pos _ hpa]
      rfl
    · rw [List.find?_cons_of_neg _ (by rw [h a]; exact hpa),
        List.find?_cons_of_neg _ hpa, ih]

theorem find?_map_none {α : Type} (g : α → α) (p : α → Bool) (l : List α)
    (h : ∀ a, p (g a) = false) : (l.map g).find? p = none := by
  rw [List.find?_eq_none]
  intro x hx
  rw [List.mem_map] at hx
  obtain ⟨a, _, rfl⟩ := hx
  simp [h a]

theorem findUser_updUser (db : DB) (uid v : Nat) (f : User → User)
    (hid : ∀ u, (f u).id = u.id) :
    findUser (updUser db uid f) v =
      (findUser db v).map (fun u => if u.id == uid then f u else u) := by
  unfold findUser
  rw [updUser_users]
  exact find?_map_eq _ _ _ (fun a => by by_cases h : (a.id == uid) = true <;> simp [h, hid])

theorem findUser_updUser_self (db : DB) (uid : Nat) (f : User → User)
    (hid : ∀ u, (f u).id = u.id) :
    findUser (updUser db uid f) uid = (findUser db uid).map f := by
  rw [findUser_updUser db uid uid f hid]
  cases h : findUser db uid with
  | none => rfl
  | some u =>
    have h' : db.users.find? (fun x => x.id == uid) = some u := h
    have hp := List.find?_some h'
    simp only [beq_iff_eq] at hp
    simp [hp]

theorem findActiveReport_updReport (db : DB) (rid : Nat) (f : Report → Report)
    (hid : ∀ r, (f r).id = r.id) (hact : ∀ r, (f r).is_active = r.is_active) :
    findActiveReport (updReport db rid f) rid = (findActiveReport db rid).map f := by
  unfold findActiveReport
  rw [updReport_reports]
  rw [find?_map_eq _ _ _ (fun a => by by_cases h : (a.id == rid) = true <;> simp [h, hid, hact])]
  cases h : db.reports.find? (fun r => r.id == rid && r.is_active) with
  | none => rfl
  | some r =>
    have hp := List.find?_some h
    have hpid : r.id = rid := by
      cases hh : (r.id == rid) <;> simp [hh] at hp ⊢
      exact of_decide_eq_true hh
    simp [hpid]

theorem findActiveReport_deactivate (db : DB) (rid : Nat) :
    findActiveReport (updReport db rid (fun r => { r with is_active := false })) rid = none := by
  unfold findActiveReport
  rw [updReport_reports]
  apply find?_map_none
  intro a
  by_cases h : (a.id == rid) = true <;> simp [h]

theorem findActiveReport_updUser (db : DB) (uid : Nat) (f : User → User) (rid : Nat) :
    findActiveReport (updUser db uid f) rid = findActiveReport db rid := rfl

theorem findUser_updReport (db : DB) (rid : Nat) (f : Report → Report) (uid : Nat) :
    findUser (updReport db rid f) uid = findUser db uid := rfl

theorem findUser_setVotes (db : DB) (vs : List Vote) (uid : Nat) :
    findUser { db with report_votes := vs } uid = findUser db uid := rfl

theorem findActiveReport_setVotes (db : DB) (vs : List Vote) (rid : Nat) :
    findActiveReport { db with report_votes := vs } rid = findActiveReport db rid := rfl

theorem xpLe_refl (a : Option Int) : xpLe a a := by cases a <;> simp [xpLe]

theorem xpLe_of_eq {a b : Option Int} (h : a = b) : xpLe a b := by
  rw [h]
  exact xpLe_refl b

theorem xpLe_trans {a b c : Option Int} (h1 : xpLe a b) (h2 : xpLe b c) : xpLe a c := by
  cases a <;> cases b <;> cases c <;> simp_all [xpLe]
  omega

theorem xpOf_congr (db db' : DB) (h : db.users = db'.users) (v : Nat) :
    xpOf db v = xpOf db' v := by
  unfold xpOf findUser
  rw [h]

theorem xpOf_updUser (db : DB) (uid v : Nat) (f : User → User)
    (hid : ∀ u, (f u).id = u.id) (hxp : ∀ u, u.lifetime_xp ≤ (f u).lifetime_xp) :
    xpLe (xpOf db v) (xpOf (updUser db uid f) v) := by
  unfold xpOf
  rw [findUser_updUser db uid v f hid]
  cases h : findUser db v with
  | none => simp [xpLe]
  | some u =>
    by_cases hu : u.id = uid <;> simp [hu, xpLe, hxp u]

theorem xpLe_updUser_of_users_eq (db X : DB) (uid v : Nat) (f : User → User)
    (husers : X.users = db.users)
    (hid : ∀ u, (f u).id = u.id) (hxp : ∀ u, u.lifetime_xp ≤ (f u).lifetime_xp) :
    xpLe (xpOf db v) (xpOf (updUser X uid f) v) := by
  have h1 := xpOf_updUser X uid v f hid hxp
  rwa [xpOf_congr X db husers v] at h1

theorem runAborted_mem (ops : List TxOp) (k : Nat) (d p : DB) :
    (runOps (ops.take k) d p).1 = d ∨
      (runOps (ops.take k) d p).1 ∈ commitStates ops p := by
  induction ops generalizing k d p with
  | nil =>
    left
    cases k <;> rfl
  | cons op rest ih =>
    cases k with
    | zero => left; rfl
    | succ k =>
      cases op with
      | write f =>
        rw [List.take_succ_cons]
        exact ih k d (f p)
      | commit =>
        rw [List.take_succ_cons]
        rcases ih k p p with h | h
        · right
          show (runOps (rest.take k) p p).1 ∈ p :: commitStates rest p
          rw [h]
          exact List.mem_cons_self _ _
        · right
          exact List.mem_cons_of_mem _ h

theorem rewardView_reset (db : DB) (uid v : Nat) (today : Int) :
    rewardView (updUser db uid (fun u =>
      { u with daily_reports_count := some 0, last_report_date := some today })) v =
    rewardView db v := by
  unfold rewardView
  rw [findUser_updUser db uid v (fun u =>
    { u with daily_reports_count := some 0, last_report_date := some today }) (fun u => rfl)]
  cases h : findUser db v with
  | none => rfl
  | some u =>
    by_cases hu : u.id = uid <;> simp [hu]

theorem copiar_mem_ids (rows : List Report) (hist : List HistRow) :
    (∀ i, i ∈ hist.map (·.id) → i ∈ (copiar_historico hist rows).1.map (·.id)) ∧
    (∀ r ∈ rows, r.id ∈ (copiar_historico hist rows).1.map (·.id)) := by
  induction rows generalizing hist with
  | nil => exact ⟨fun i h => h, by simp⟩
  | cons r rest ih =>
    by_cases hr : hist.any (fun h => h.id == r.id)
    · have hmem : r.id ∈ hist.map (·.id) := by
        rw [List.any_eq_true] at hr
        obtain ⟨x, hx, hxe⟩ := hr
        rw [beq_iff_eq] at hxe
        exact hxe ▸ List.mem_map_of_mem _ hx
      constructor
      · intro i hi
        simp only [copiar_historico, hr, if_true]
        exact (ih hist).1 i hi
      · intro x hx
        simp only [copiar_historico, hr, if_true]
        rcases List.mem_cons.mp hx with h | h
        · exact h ▸ (ih hist).1 _ hmem
        · exact (ih hist).2 x h
    · rw [Bool.not_eq_true] at hr
      constructor
      · intro i hi
        simp only [copiar_historico, hr, Bool.false_eq_true, if_false]
        exact (ih (hist ++ [toHistRow r])).1 i (by simp [hi])
      · intro x hx
        simp only [copiar_historico, hr, Bool.false_eq_true, if_false]
        rcases List.mem_cons.mp hx with h | h
        · rw [h]
          exact (ih (hist ++ [toHistRow r])).1 r.id (by simp [toHistRow])
        · exact (ih (hist ++ [toHistRow r])).2 x h

theorem copiar_nodup (rows : List Report) (hist : List HistRow)
    (h : (hist.map (·.id)).Nodup) :
    ((copiar_historico hist rows).1.map (·.id)).Nodup := by
  induction rows generalizing hist with
  | nil => exact h
  | cons r rest ih =>
    by_cases hr : hist.any (fun x => x.id == r.id)
    · simp only [copiar_historico, hr, if_true]
      exact ih hist h
    · rw [Bool.not_eq_true] at hr
      simp only [copiar_historico, hr, Bool.false_eq_true, if_false]
      apply ih
      rw [List.map_append, List.nodup_append]
      refine ⟨h, by simp, ?_⟩
      intro i hi hmem
      simp only [List.map_cons, List.map_nil, List.mem_singleton] at hmem
      rw [List.mem_map] at hi
      obtain ⟨a, ha, rfl⟩ := hi
      rw [List.any_eq_false] at hr
      have hne := hr a ha
      simp only [beq_iff_eq] at hne
      exact hne (by simpa [toHistRow] using hmem)

theorem archivar_fixpoint_of_zero (now : Int) (db : DB)
    (h : ¬ (copiar_historico db.reports_history (db.reports.filter (vencido now))).2 > 0) :
    archivar_vencidos now db = db := by
  simp only [archivar_vencidos]
  rw [if_neg h]

theorem archivar_of_pos (now : Int) (db : DB)
    (h : (copiar_historico db.reports_history (db.reports.filter (vencido now))).2 > 0) :
    archivar_vencidos now db =
      { db with
        reports_history :=
          (copiar_historico db.reports_history (db.reports.filter (vencido now))).1,
        reports := db.reports.filter (fun r => !vencido now r) } := by
  simp only [archivar_vencidos]
  rw [if_pos h]

theorem crear_created_mem (near : Loc → Loc → Bool) (now today : Int)
    (db db1 : DB) (uid : Nat) (tc : String) (loc : Loc) (newId : Nat)
    (h : crear_reporte near now today db uid tc loc newId = (db1, SubmitOutcome.created)) :
    (⟨newId, uid, tc, "Reporte desde App", loc, now, 0, true⟩ : Report) ∈ db1.reports := by
  unfold crear_reporte at h
  cases hu : findUser db uid with
  | none => rw [hu] at h; simp at h
  | some user =>
    rw [hu] at h
    dsimp only at h
    by_cases hrn : (user.last_report_date == some today) = true
    · simp only [hrn, Bool.not_true, Bool.false_eq_true, if_false] at h
      cases hd : buscar_duplicado near now db.reports tc loc with
      | some r => rw [hd] at h; simp at h
      | none =>
        rw [hd] at h
        by_cases hq : (!user.is_premium && decide (user.daily_reports_count.getD 0 ≥ 3)) = true
        · rw [if_pos hq] at h; simp at h
        · rw [if_neg hq] at h
          have hdb : db1.reports = db.reports ++
              [⟨newId, uid, tc, "Reporte desde App", loc, now, 0, true⟩] := by
            have := congrArg Prod.fst h
            exact congrArg DB.reports this.symm
          rw [hdb]
          simp
    · simp only [hrn, Bool.not_false, Bool.false_eq_true, if_true, updUser_reports] at h
      cases hd : buscar_duplicado near now db.reports tc loc with
      | some r => rw [hd] at h; simp at h
      | none =>
        rw [hd] at h
        by_cases hq : (!user.is_premium && decide ((0 : Int) ≥ 3)) = true
        · rw [if_pos hq] at h; simp at h
        · rw [if_neg hq] at h
          have hdb : db1.reports = db.reports ++
              [⟨newId, uid, tc, "Reporte desde App", loc, now, 0, true⟩] := by
            have := congrArg Prod.fst h
            exact congrArg DB.reports this.symm
          rw [hdb]
          simp

theorem crear_confirm_case (near : Loc → Loc → Bool) (now today : Int) (db : DB)
    (uid : Nat) (tc : String) (loc : Loc) (newId : Nat) (user : User) (r : Report)
    (hu : findUser db uid = some user)
    (hfound : buscar_duplicado near now db.reports tc loc = some r) :
    (crear_reporte near now today db uid tc loc newId).2 = SubmitOutcome.confirmed ∧
    (crear_reporte near now today db uid tc loc newId).1.reports =
      db.reports.map (fun x => if x.id == r.id then { x with created_at := now } else x) ∧
    (∃ u', findUser (crear_reporte near now today db uid tc loc newId).1 uid = some u' ∧
      u'.reputation = user.reputation + 3 ∧ u'.lifetime_xp = user.lifetime_xp + 2 ∧
      u'.total_helps = user.total_helps + 1) := by
  unfold crear_reporte
  rw [hu]
  dsimp only
  by_cases hrn : (user.last_report_date == some today) = true
  · simp only [hrn, Bool.not_true, Bool.false_eq_true, if_false]
    rw [hfound]
    refine ⟨rfl, rfl, ?_⟩
    have hfu : findUser (updUser
          (updReport db r.id (fun x => { x with created_at := now })) uid
          (fun u => { u with reputation := u.reputation + 3,
                             lifetime_xp := u.lifetime_xp + 2,
                             total_helps := u.total_helps + 1 })) uid =
        some { user with reputation := user.reputation + 3,
                         lifetime_xp := user.lifetime_xp + 2,
                         total_helps := user.total_helps + 1 } := by
      rw [findUser_updUser_self _ uid (fun u =>
            { u with reputation := u.reputation + 3, lifetime_xp := u.lifetime_xp + 2,
                     total_helps := u.total_helps + 1 }) (fun u => rfl),
        findUser_updReport, hu]
      rfl
    exact ⟨_, hfu, rfl, rfl, rfl⟩
  · simp only [hrn, Bool.not_false, Bool.false_eq_true, if_true, updUser_reports]
    rw [hfound]
    refine ⟨rfl, rfl, ?_⟩
    have hfu : findUser (updUser
          (updReport (updUser db uid (fun u =>
              { u with daily_reports_count := some 0, last_report_date := some today }))
            r.id (fun x => { x with created_at := now })) uid
          (fun u => { u with reputation := u.reputation + 3,
                             lifetime_xp := u.lifetime_xp + 2,
                             total_helps := u.total_helps + 1 })) uid =
        some { user with daily_reports_count := some 0, last_report_date := some today,
                         reputation := user.reputation + 3,
                         lifetime_xp := user.lifetime_xp + 2,
                         total_helps := user.total_helps + 1 } := by
      rw [findUser_updUser_self _ uid (fun u =>
            { u with reputation := u.reputation + 3, lifetime_xp := u.lifetime_xp + 2,
                     total_helps := u.total_helps + 1 }) (fun u => rfl),
        findUser_updReport,
        findUser_updUser_self _ uid (fun u =>
            { u with daily_reports_count := some 0,
                     last_report_date := some today }) (fun u => rfl), hu]
      rfl
    exact ⟨_, hfu, rfl, rfl, rfl⟩

/-!
The claim theorems.
-/

/-- Claim C8: `poder_voto` is 1 for experience at most 50, 3 above 50 up to
500, 5 above 500, and is a monotone step function of experience. -/
theorem c8_vote_weight (x : Int) :
    (x ≤ 50 → poder_voto x = 1) ∧
    (50 < x → x ≤ 500 → poder_voto x = 3) ∧
    (500 < x → poder_voto x = 5) ∧
    (∀ y : Int, x ≤ y → poder_voto x ≤ poder_voto y) := by
  refine ⟨?_, ?_, ?_, ?_⟩
  · intro h; simp [poder_voto]; omega
  · intro h1 h2; simp [poder_voto]; omega
  · intro h; simp [poder_voto]; omega
  · intro y hxy; simp only [poder_voto]; split_ifs <;> omega

/-- Witness for C8 at concrete experience values 10, 100 and 600. -/
theorem c8_vote_weight_witness :
    poder_voto 10 = 1 ∧ poder_voto 100 = 3 ∧ poder_voto 600 = 5 :=
  ⟨(c8_vote_weight 10).1 (by decide),
   (c8_vote_weight 100).2.1 (by decide) (by decide),
   (c8_vote_weight 600).2.2.1 (by decide)⟩

/-- Claim C4: the vote preconditions are checked in order with the first
failure winning — missing/inactive report, then self-vote, then duplicate
vote — each rejection returning its own outcome and leaving the store
untouched. -/
theorem c4_vote_preconditions (now : Int) (db : DB) (uid rid : Nat) (tipo : String) :
    (findActiveReport db rid = none →
      votar_reporte now db uid rid tipo = (db, VoteOutcome.reportGone)) ∧
    (∀ r, findActiveReport db rid = some r → r.user_id = uid →
      votar_reporte now db uid rid tipo = (db, VoteOutcome.selfVote)) ∧
    (∀ r, findActiveReport db rid = some r → r.user_id ≠ uid →
      hasVote db uid rid = true →
      votar_reporte now db uid rid tipo = (db, VoteOutcome.alreadyVoted)) := by
  refine ⟨?_, ?_, ?_⟩
  · intro h; simp [votar_reporte, h]
  · intro r h hself; simp [votar_reporte, h, hself]
  · intro r h hself hvote; simp [votar_reporte, h, hself, hvote]

/-- Witness for C4: the three rejection cases at concrete inputs. -/
theorem c4_vote_preconditions_witness :
    votar_reporte 5 exDb 2 11 "borrar" = (exDb, VoteOutcome.reportGone) ∧
    votar_reporte 5 exDb 1 10 "borrar" = (exDb, VoteOutcome.selfVote) ∧
    votar_reporte 5 exDbVoted 2 10 "borrar" = (exDbVoted, VoteOutcome.alreadyVoted) :=
  ⟨(c4_vote_preconditions 5 exDb 2 11 "borrar").1 rfl,
   (c4_vote_preconditions 5 exDb 1 10 "borrar").2.1 exRep rfl rfl,
   (c4_vote_preconditions 5 exDbVoted 2 10 "borrar").2.2 exRep rfl (by decide) rfl⟩

theorem c1_refute_vote (now : Int) (db : DB) (uid rid : Nat) (r : Report) (w : Int)
    (hfind : findActiveReport db rid = some r)
    (hself : r.user_id ≠ uid)
    (hvote : hasVote db uid rid = false)
    (hw : poder_voto (((findUser db uid).map (·.lifetime_xp)).getD 0) = w) :
    (r.score - w ≤ -5 →
      (votar_reporte now db uid rid "borrar").2 = VoteOutcome.successBorrarEliminado ∧
      findActiveReport (votar_reporte now db uid rid "borrar").1 rid = none) ∧
    (¬ (r.score - w ≤ -5) →
      (votar_reporte now db uid rid "borrar").2 = VoteOutcome.successBorrarNegativo ∧
      findActiveReport (votar_reporte now db uid rid "borrar").1 rid =
        some { r with score := r.score - w }) ∧
    findUser (votar_reporte now db uid rid "borrar").1 uid =
      (findUser db uid).map (fun u =>
        { u with reputation := u.reputation + 1, lifetime_xp := u.lifetime_xp + 1,
                 total_helps := u.total_helps + 1 }) := by
  have hvr : votar_reporte now db uid rid "borrar" =
    (let dbV : DB := { db with report_votes := db.report_votes ++ [⟨uid, rid, "borrar"⟩] }
     if r.score - w ≤ -5 then
       (updUser (updReport dbV rid (fun x => { x with is_active := false })) uid (fun u =>
          { u with reputation := u.reputation + 1, lifetime_xp := u.lifetime_xp + 1,
                   total_helps := u.total_helps + 1 }), VoteOutcome.successBorrarEliminado)
     else
       (updUser (updReport dbV rid (fun x => { x with score := x.score - w })) uid (fun u =>
          { u with reputation := u.reputation + 1, lifetime_xp := u.lifetime_xp + 1,
                   total_helps := u.total_helps + 1 }), VoteOutcome.successBorrarNegativo)) := by
    simp [votar_reporte, hfind, hself, hvote, hw]
  refine ⟨?_, ?_, ?_⟩
  · intro hle
    rw [hvr]
    simp only [hle, if_pos]
    constructor
    · trivial
    · rw [findActiveReport_updUser, findActiveReport_deactivate]
  · intro hle
    rw [hvr]
    simp only [hle, if_neg, not_false_iff]
    constructor
    · trivial
    · rw [findActiveReport_updUser,
        findActiveReport_updReport _ rid (fun x => { x with score := x.score - w })
          (fun _ => rfl) (fun _ => rfl),
        findActiveReport_setVotes, hfind]
      rfl
  · rw [hvr]
    by_cases hle : r.score - w ≤ -5
    · simp only [hle, if_pos]
      rw [findUser_updUser_self _ uid (fun u =>
        { u with reputation := u.reputation + 1, lifetime_xp := u.lifetime_xp + 1,
                 total_helps := u.total_helps + 1 }) (fun _ => rfl)]
      rfl
    · simp only [hle, if_neg, not_false_iff]
      rw [findUser_updUser_self _ uid (fun u =>
        { u with reputation := u.reputation + 1, lifetime_xp := u.lifetime_xp + 1,
                 total_helps := u.total_helps + 1 }) (fun _ => rfl)]
      rfl

/-- Witness for C1: user 2 (weight 1) refutes report 10 at score 0; the vote
succeeds, the stored score drops to −1 and the report stays active. -/
theorem c1_refute_vote_witness :
    (votar_reporte 5 exDb 2 10 "borrar").2 = VoteOutcome.successBorrarNegativo ∧
    findActiveReport (votar_reporte 5 exDb 2 10 "borrar").1 10 =
      some { exRep with score := -1 } := by
  have h := (c1_refute_vote 5 exDb 2 10 exRep 1 rfl (by decide) rfl (by decide)).2.1 (by decide)
  refine ⟨h.1, ?_⟩
  rw [h.2]
  decide

/-- Claim C10: a vote whose kind is neither `confirmar` nor `borrar`, cast on
an active report the voter does not own and has not voted on, records no
vote, mutates nothing, and yields the null fallthrough outcome rather than a
success or a distinguishable error. -/
theorem c10_unknown_vote_kind (now : Int) (db : DB) (uid rid : Nat)
    (tipo : String) (r : Report)
    (hfind : findActiveReport db rid = some r)
    (hself : r.user_id ≠ uid)
    (hvote : hasVote db uid rid = false)
    (hc : tipo ≠ "confirmar") (hb : tipo ≠ "borrar") :
    votar_reporte now db uid rid tipo = (db, VoteOutcome.fallthrough) := by
  simp [votar_reporte, hfind, hself, hvote, hc, hb]

/-- Witness for C10: a vote of kind "x" on report 10 changes nothing. -/
theorem c10_unknown_vote_kind_witness :
    votar_reporte 5 exDb 2 10 "x" = (exDb, VoteOutcome.fallthrough) :=
  c10_unknown_vote_kind 5 exDb 2 10 "x" exRep rfl (by decide) rfl (by decide) (by decide)

/-- Counterexample to C3 as stated: user 2 is not premium and has already
used the 3 free submissions today, yet a submission colliding with the
active report `exRep` is not rejected — it is treated as a corroboration and
mutates the store. -/
theorem c3_counterexample :
    (∃ u, findUser exDb 2 = some u ∧ u.is_premium = false ∧
       u.last_report_date = some 0 ∧ u.daily_reports_count.getD 0 = 3) ∧
    (crear_reporte exNear 5 0 exDb 2 "control" (0, 0) 99).2 = SubmitOutcome.confirmed ∧
    (crear_reporte exNear 5 0 exDb 2 "control" (0, 0) 99).2 ≠ SubmitOutcome.errorLimit ∧
    (crear_reporte exNear 5 0 exDb 2 "control" (0, 0) 99).1 ≠ exDb := by
  refine ⟨⟨exUser2, rfl, rfl, rfl, rfl⟩, ?_, ?_, ?_⟩ <;> decide

/-- Claim C3 (amended): a submission by a non-premium user whose counter,
after the date-rollover reset, has reached the free daily limit of 3 and
whose dedup lookup finds no matching active report, is rejected with the
quota outcome and mutates nothing. -/
theorem c3_quota_reject (near : Loc → Loc → Bool) (now today : Int) (db : DB)
    (uid : Nat) (tc : String) (loc : Loc) (newId : Nat) (u : User)
    (hu : findUser db uid = some u)
    (hprem : u.is_premium = false)
    (hdate : u.last_report_date = some today)
    (hcount : 3 ≤ u.daily_reports_count.getD 0)
    (hdedup : buscar_duplicado near now db.reports tc loc = none) :
    crear_reporte near now today db uid tc loc newId = (db, SubmitOutcome.errorLimit) := by
  simp [crear_reporte, hu, hprem, hdate, hcount, hdedup]

/-- Witness for the amended C3: user 2, at the limit, submits a category
with no nearby active report and is rejected with no state change. -/
theorem c3_quota_reject_witness :
    crear_reporte exNear 5 0 exDb 2 "accidente" (0, 0) 99 = (exDb, SubmitOutcome.errorLimit) :=
  c3_quota_reject exNear 5 0 exDb 2 "accidente" (0, 0) 99 exUser2 rfl rfl rfl (by decide) rfl

/-- Claim C5 is violated by the code: the dedup window of 'obra' is 24 hours
and the three-hour-old active 'obra' report still matches the dedup
predicate, yet the sweep's fixed two-hour window (`vencido`) archives that
same report as expired ('vencido_tiempo') and deletes it from the live
store. -/
theorem c5_window_drift :
    dedup_intervalo "obra" = 24 * 3600 ∧
    dedupMatch exNear 10800 "obra" (0, 0) exObra = true ∧
    vencido 10800 exObra = true ∧
    (archivar_vencidos 10800 exDbObra).reports = [] ∧
    (archivar_vencidos 10800 exDbObra).reports_history.map
      (fun h => (h.id, h.final_status)) = [(20, "vencido_tiempo")] := by
  refine ⟨rfl, ?_, ?_, ?_, ?_⟩ <;> decide

/-- Claim C7: running the sweep twice over an unchanged store equals running
it once; the copy step never duplicates a historical id; and every row the
delete step removes is present (by id) in the resulting historical store. -/
theorem c7_sweep_idempotent (now : Int) (db : DB) :
    archivar_vencidos now (archivar_vencidos now db) = archivar_vencidos now db ∧
    ((db.reports_history.map (·.id)).Nodup →
      (((archivar_vencidos now db).reports_history).map (·.id)).Nodup) ∧
    (∀ r ∈ db.reports, r ∉ (archivar_vencidos now db).reports →
      r.id ∈ ((archivar_vencidos now db).reports_history).map (·.id)) := by
  by_cases h : (copiar_historico db.reports_history (db.reports.filter (vencido now))).2 > 0
  · have harch := archivar_of_pos now db h
    have hfe : ((db.reports.filter (fun r => !vencido now r)).filter (vencido now)) = [] := by
      rw [List.filter_filter]
      simp
    refine ⟨?_, ?_, ?_⟩
    · rw [harch]
      apply archivar_fixpoint_of_zero
      simp [hfe, copiar_historico]
    · intro hnd
      rw [harch]
      exact copiar_nodup _ _ hnd
    · intro r hr hnot
      rw [harch] at hnot ⊢
      simp only [List.mem_filter] at hnot
      have hv : vencido now r = true := by
        by_cases hvv : vencido now r = true
        · exact hvv
        · exact absurd ⟨hr, by simp [hvv]⟩ hnot
      exact (copiar_mem_ids _ _).2 r (List.mem_filter.mpr ⟨hr, hv⟩)
  · have harch := archivar_fixpoint_of_zero now db h
    refine ⟨by rw [harch, harch], by intro hnd; rw [harch]; exact hnd, ?_⟩
    intro r hr hnot
    rw [harch] at hnot
    exact absurd hr hnot

/-- Witness for C7 at a concrete store: one expired report, archived once;
a second run is a no-op and the resulting history has no duplicate ids. -/
theorem c7_sweep_idempotent_witness :
    archivar_vencidos 99999 (archivar_vencidos 99999 exDb) = archivar_vencidos 99999 exDb ∧
    (((archivar_vencidos 99999 exDb).reports_history).map (·.id)).Nodup := by
  have h := c7_sweep_idempotent 99999 exDb
  exact ⟨h.1, h.2.1 (by decide)⟩

/-- Claim C9: no engine operation decreases a user's `lifetime_xp` — report
submission in both branches, voting of any kind, both point redemptions, and
the archival sweep. -/
theorem c9_xp_monotone (near : Loc → Loc → Bool) (now today : Int) (db : DB)
    (uid rid newId : Nat) (tc tipo : String) (loc : Loc) (costo cantidad : Int)
    (v : Nat) :
    xpLe (xpOf db v) (xpOf (crear_reporte near now today db uid tc loc newId).1 v) ∧
    xpLe (xpOf db v) (xpOf (votar_reporte now db uid rid tipo).1 v) ∧
    xpLe (xpOf db v) (xpOf (canjear_puntos db uid costo cantidad).1 v) ∧
    xpLe (xpOf db v) (xpOf (canjear_premium db uid costo).1 v) ∧
    xpLe (xpOf db v) (xpOf (archivar_vencidos now db) v) := by
  refine ⟨?_, ?_, ?_, ?_, ?_⟩
  · unfold crear_reporte
    cases hu : findUser db uid with
    | none => exact xpLe_refl _
    | some user =>
      dsimp only
      by_cases hrn : (user.last_report_date == some today) = true
      · simp only [hrn, Bool.not_true, Bool.false_eq_true, if_false]
        cases hd : buscar_duplicado near now db.reports tc loc with
        | some r =>
          exact xpLe_updUser_of_users_eq db _ uid v _ rfl (fun u => rfl)
            (fun u => by show u.lifetime_xp ≤ u.lifetime_xp + 2; omega)
        | none =>
          by_cases hq : (!user.is_premium && decide (user.daily_reports_count.getD 0 ≥ 3)) = true
          · rw [if_pos hq]
            exact xpLe_refl _
          · rw [if_neg hq]
            exact xpLe_updUser_of_users_eq db _ uid v _ rfl (fun u => rfl)
              (fun u => by show u.lifetime_xp ≤ u.lifetime_xp + 5; omega)
      · simp only [hrn, Bool.not_false, Bool.false_eq_true, if_true, updUser_reports]
        have hstep1 : xpLe (xpOf db v)
            (xpOf (updUser db uid (fun u =>
              { u with daily_reports_count := some 0, last_report_date := some today })) v) :=
          xpOf_updUser db uid v _ (fun u => rfl) (fun u => le_refl _)
        cases hd : buscar_duplicado near now db.reports tc loc with
        | some r =>
          refine xpLe_trans hstep1 ?_
          exact xpLe_updUser_of_users_eq _ _ uid v _ rfl (fun u => rfl)
            (fun u => by show u.lifetime_xp ≤ u.lifetime_xp + 2; omega)
        | none =>
          by_cases hq : (!user.is_premium && decide ((0 : Int) ≥ 3)) = true
          · rw [if_pos hq]
            exact hstep1
          · rw [if_neg hq]
            refine xpLe_trans hstep1 ?_
            exact xpLe_updUser_of_users_eq _ _ uid v _ rfl (fun u => rfl)
              (fun u => by show u.lifetime_xp ≤ u.lifetime_xp + 5; omega)
  · unfold votar_reporte
    cases hf : findActiveReport db rid with
    | none => exact xpLe_refl _
    | some r =>
      dsimp only
      by_cases hself : (r.user_id == uid) = true
      · rw [if_pos hself]
        exact xpLe_refl _
      · rw [if_neg hself]
        by_cases hv : hasVote db uid rid = true
        · rw [if_pos hv]
          exact xpLe_refl _
        · rw [if_neg hv]
          by_cases hc : (tipo == "confirmar") = true
          · rw [if_pos hc]
            exact xpLe_updUser_of_users_eq db _ uid v _ rfl (fun u => rfl)
              (fun u => by show u.lifetime_xp ≤ u.lifetime_xp + 1; omega)
          · rw [if_neg hc]
            by_cases hb : (tipo == "borrar") = true
            · rw [if_pos hb]
              by_cases hs : r.score -
                  poder_voto (((findUser db uid).map (·.lifetime_xp)).getD 0) ≤ -5
              · rw [if_pos hs]
                exact xpLe_updUser_of_users_eq db _ uid v _ rfl (fun u => rfl)
                  (fun u => by show u.lifetime_xp ≤ u.lifetime_xp + 1; omega)
              · rw [if_neg hs]
                exact xpLe_updUser_of_users_eq db _ uid v _ rfl (fun u => rfl)
                  (fun u => by show u.lifetime_xp ≤ u.lifetime_xp + 1; omega)
            · rw [if_neg hb]
              exact xpLe_refl _
  · unfold canjear_puntos
    cases hu : findUser db uid with
    | none => exact xpLe_refl _
    | some user =>
      dsimp only
      by_cases hrep : user.reputation < costo
      · rw [if_pos hrep]
        exact xpLe_refl _
      · rw [if_neg hrep]
        cases hd : user.daily_reports_count with
        | none => exact xpLe_refl _
        | some usados =>
          exact xpLe_updUser_of_users_eq db db uid v _ rfl (fun u => rfl)
            (fun u => le_refl _)
  · unfold canjear_premium
    cases hu : findUser db uid with
    | none => exact xpLe_refl _
    | some user =>
      dsimp only
      by_cases hprem : user.is_premium = true
      · rw [if_pos hprem]
        exact xpLe_refl _
      · rw [if_neg hprem]
        by_cases hrep : user.reputation < costo
        · rw [if_pos hrep]
          exact xpLe_refl _
        · rw [if_neg hrep]
          exact xpLe_updUser_of_users_eq db db uid v _ rfl (fun u => rfl)
            (fun u => le_refl _)
  · by_cases h : (copiar_historico db.reports_history (db.reports.filter (vencido now))).2 > 0
    · rw [archivar_of_pos now db h]
      exact xpLe_of_eq (xpOf_congr db _ rfl v)
    · rw [archivar_fixpoint_of_zero now db h]
      exact xpLe_refl _

/-- Claim C2: after a Submit created a report, any second Submit of the same
category at a point within the dedup radius of the first and within the
category's time window is folded into an existing report: the outcome is the
corroboration one, no report row is added, some matched report's `created_at`
is renewed to the second call's time, and the second submitter receives the
corroboration reward (+3 points, +2 experience, +1 total_helps), not the
creation reward. -/
theorem c2_dedup_no_duplicate (near : Loc → Loc → Bool)
    (now1 today1 now2 today2 : Int) (db db1 : DB) (u1 u2 newId1 newId2 : Nat)
    (tc : String) (loc1 loc2 : Loc) (user2 : User)
    (h1 : crear_reporte near now1 today1 db u1 tc loc1 newId1 = (db1, SubmitOutcome.created))
    (hu2 : findUser db1 u2 = some user2)
    (hnear : near loc1 loc2 = true)
    (htime : now1 > now2 - dedup_intervalo tc) :
    (crear_reporte near now2 today2 db1 u2 tc loc2 newId2).2 = SubmitOutcome.confirmed ∧
    (crear_reporte near now2 today2 db1 u2 tc loc2 newId2).1.reports.length
      = db1.reports.length ∧
    (∃ r, buscar_duplicado near now2 db1.reports tc loc2 = some r ∧
      (crear_reporte near now2 today2 db1 u2 tc loc2 newId2).1.reports
        = db1.reports.map (fun x => if x.id == r.id then { x with created_at := now2 } else x)) ∧
    (∃ u', findUser (crear_reporte near now2 today2 db1 u2 tc loc2 newId2).1 u2 = some u' ∧
      u'.reputation = user2.reputation + 3 ∧ u'.lifetime_xp = user2.lifetime_xp + 2 ∧
      u'.total_helps = user2.total_helps + 1) := by
  have hmem := crear_created_mem near now1 today1 db db1 u1 tc loc1 newId1 h1
  have hmatch : dedupMatch near now2 tc loc2
      (⟨newId1, u1, tc, "Reporte desde App", loc1, now1, 0, true⟩ : Report) = true := by
    simp [dedupMatch, hnear]
    omega
  have hsome : (db1.reports.find? (dedupMatch near now2 tc loc2)).isSome := by
    rw [List.find?_isSome]
    exact ⟨_, hmem, hmatch⟩
  obtain ⟨r, hfound⟩ := Option.isSome_iff_exists.mp hsome
  have hcase := crear_confirm_case near now2 today2 db1 u2 tc loc2 newId2 user2 r hu2 hfound
  refine ⟨hcase.1, ?_, ⟨r, hfound, hcase.2.1⟩, hcase.2.2⟩
  rw [hcase.2.1, List.length_map]

/-- Witness for C2: user 2 re-submits the same category at the same point
one second later; the call corroborates instead of creating a row. -/
theorem c2_dedup_no_duplicate_witness :
    (crear_reporte exNear 6 0 exDb1 2 "accidente" (3, 3) 43).2 = SubmitOutcome.confirmed ∧
    (crear_reporte exNear 6 0 exDb1 2 "accidente" (3, 3) 43).1.reports.length
      = exDb1.reports.length := by
  have h := c2_dedup_no_duplicate exNear 5 0 6 0 exDb exDb1 1 2 42 43 "accidente"
    (3, 3) (3, 3) exUser2 (by decide) (by decide) (by decide) (by decide)
  exact ⟨h.1, h.2.1⟩

/-- Claim C6: wherever a Submit or Vote transition is cut short (the
connection dies after `k` steps and uncommitted writes roll back), the
durable store shows either none of the transition's mutations or all of
them: the report table and the voter's reward columns (and for votes the
vote table) always move together.  The daily-rollover reset, committed
separately by the code, touches neither. -/
theorem c6_atomicity (near : Loc → Loc → Bool) (now today : Int) (db : DB)
    (uid rid newId : Nat) (tc tipo : String) (loc : Loc) (k : Nat) :
    (((runAborted (crear_trace near now today db uid tc loc newId) k db).reports = db.reports ∧
      rewardView (runAborted (crear_trace near now today db uid tc loc newId) k db) uid
        = rewardView db uid) ∨
     ((runAborted (crear_trace near now today db uid tc loc newId) k db).reports
        = (crear_reporte near now today db uid tc loc newId).1.reports ∧
      rewardView (runAborted (crear_trace near now today db uid tc loc newId) k db) uid
        = rewardView (crear_reporte near now today db uid tc loc newId).1 uid)) ∧
    (((runAborted (votar_trace now db uid rid tipo) k db).reports = db.reports ∧
      (runAborted (votar_trace now db uid rid tipo) k db).report_votes = db.report_votes ∧
      rewardView (runAborted (votar_trace now db uid rid tipo) k db) uid = rewardView db uid) ∨
     ((runAborted (votar_trace now db uid rid tipo) k db).reports
        = (votar_reporte now db uid rid tipo).1.reports ∧
      (runAborted (votar_trace now db uid rid tipo) k db).report_votes
        = (votar_reporte now db uid rid tipo).1.report_votes ∧
      rewardView (runAborted (votar_trace now db uid rid tipo) k db) uid
        = rewardView (votar_reporte now db uid rid tipo).1 uid)) := by
  constructor
  · unfold crear_trace crear_reporte
    cases hu : findUser db uid with
    | none =>
      left
      rcases k with _ | k <;> exact ⟨rfl, rfl⟩
    | some user =>
      dsimp only
      by_cases hrn : (user.last_report_date == some today) = true
      · simp only [hrn, Bool.not_true, Bool.false_eq_true, if_false]
        cases hd : buscar_duplicado near now db.reports tc loc with
        | some r =>
          dsimp only
          rcases k with _ | _ | _ | k
          · left; exact ⟨rfl, rfl⟩
          · left; exact ⟨rfl, rfl⟩
          · left; exact ⟨rfl, rfl⟩
          · rcases k with _ | k
            · right; exact ⟨rfl, rfl⟩
            · right; exact ⟨rfl, rfl⟩
        | none =>
          dsimp only
          by_cases hq : (!user.is_premium && decide (user.daily_reports_count.getD 0 ≥ 3)) = true
          · rw [if_pos hq, if_pos hq]
            left
            rcases k with _ | k <;> exact ⟨rfl, rfl⟩
          · rw [if_neg hq, if_neg hq]
            rcases k with _ | _ | _ | k
            · left; exact ⟨rfl, rfl⟩
            · left; exact ⟨rfl, rfl⟩
            · left; exact ⟨rfl, rfl⟩
            · rcases k with _ | k
              · right; exact ⟨rfl, rfl⟩
              · right; exact ⟨rfl, rfl⟩
      · simp only [hrn, Bool.not_false, Bool.false_eq_true, if_true, updUser_reports]
        cases hd : buscar_duplicado near now db.reports tc loc with
        | some r =>
          dsimp only
          rcases k with _ | _ | _ | _ | _ | k
          · left; exact ⟨rfl, rfl⟩
          · left; exact ⟨rfl, rfl⟩
          · left; exact ⟨rfl, rewardView_reset db uid uid today⟩
          · left; exact ⟨rfl, rewardView_reset db uid uid today⟩
          · left; exact ⟨rfl, rewardView_reset db uid uid today⟩
          · rcases k with _ | k
            · right; exact ⟨rfl, rfl⟩
            · right; exact ⟨rfl, rfl⟩
        | none =>
          dsimp only
          by_cases hq : (!user.is_premium && decide ((0 : Int) ≥ 3)) = true
          · rw [if_pos hq, if_pos hq]
            rcases k with _ | _ | k
            · left; exact ⟨rfl, rfl⟩
            · left; exact ⟨rfl, rfl⟩
            · rcases k with _ | k
              · right; exact ⟨rfl, rfl⟩
              · right; exact ⟨rfl, rfl⟩
          · rw [if_neg hq, if_neg hq]
            rcases k with _ | _ | _ | _ | _ | k
            · left; exact ⟨rfl, rfl⟩
            · left; exact ⟨rfl, rfl⟩
            · left; exact ⟨rfl, rewardView_reset db uid uid today⟩
            · left; exact ⟨rfl, rewardView_reset db uid uid today⟩
            · left; exact ⟨rfl, rewardView_reset db uid uid today⟩
            · rcases k with _ | k
              · right; exact ⟨rfl, rfl⟩
              · right; exact ⟨rfl, rfl⟩
  · unfold votar_trace votar_reporte
    cases hf : findActiveReport db rid with
    | none =>
      left
      rcases k with _ | k <;> exact ⟨rfl, rfl, rfl⟩
    | some r =>
      dsimp only
      by_cases hself : (r.user_id == uid) = true
      · rw [if_pos hself, if_pos hself]
        left
        rcases k with _ | k <;> exact ⟨rfl, rfl, rfl⟩
      · rw [if_neg hself, if_neg hself]
        by_cases hv : hasVote db uid rid = true
        · rw [if_pos hv, if_pos hv]
          left
          rcases k with _ | k <;> exact ⟨rfl, rfl, rfl⟩
        · rw [if_neg hv, if_neg hv]
          by_cases hc : (tipo == "confirmar") = true
          · rw [if_pos hc, if_pos hc]
            rcases k with _ | _ | _ | _ | k
            · left; exact ⟨rfl, rfl, rfl⟩
            · left; exact ⟨rfl, rfl, rfl⟩
            · left; exact ⟨rfl, rfl, rfl⟩
            · left; exact ⟨rfl, rfl, rfl⟩
            · rcases k with _ | k
              · right; exact ⟨rfl, rfl, rfl⟩
              · right; exact ⟨rfl, rfl, rfl⟩
          · rw [if_neg hc, if_neg hc]
            by_cases hb : (tipo == "borrar") = true
            · rw [if_pos hb, if_pos hb]
              by_cases hs : r.score -
                  poder_voto (((findUser db uid).map (·.lifetime_xp)).getD 0) ≤ -5
              · rw [if_pos hs, if_pos hs]
                rcases k with _ | _ | _ | _ | k
                · left; exact ⟨rfl, rfl, rfl⟩
                · left; exact ⟨rfl, rfl, rfl⟩
                · left; exact ⟨rfl, rfl, rfl⟩
                · left; exact ⟨rfl, rfl, rfl⟩
                · rcases k with _ | k
                  · right; exact ⟨rfl, rfl, rfl⟩
                  · right; exact ⟨rfl, rfl, rfl⟩
              · rw [if_neg hs, if_neg hs]
                rcases k with _ | _ | _ | _ | k
                · left; exact ⟨rfl, rfl, rfl⟩
                · left; exact ⟨rfl, rfl, rfl⟩
                · left; exact ⟨rfl, rfl, rfl⟩
                · left; exact ⟨rfl, rfl, rfl⟩
                · rcases k with _ | k
                  · right; exact ⟨rfl, rfl, rfl⟩
                  · right; exact ⟨rfl, rfl, rfl⟩
            · rw [if_neg hb, if_neg hb]
              left
              rcases k with _ | k <;> exact ⟨rfl, rfl, rfl⟩
